import Mathlib

/-!
Shallow embedding of the pytest-smoothbrain machine-pool lifecycle
coordinator (src/smoothbrain/__init__.py): the refcounted `Machine` base
class flattened together with its `VixMachine` backend, and the four
pytest hooks (`pytest_sessionstart`, `pytest_generate_tests`,
`pytest_runtest_call`, `pytest_runtest_teardown`).  Operations of the
external vix library and of the Python standard library that the plugin
calls (power control, snapshot revert, guest file copy, `os.path.dirname`,
`tempfile`) are not part of the repository; they are modelled from the
specification and marked as such in their doc comments.  Host-side logging
and printing are omitted: they touch no modelled state.
-/

namespace Smoothbrain

/-- Bytes of one file, host side or guest side. -/
abbrev Bytes := List Nat

/-- An association-list view of a filesystem: path to contents.  Keys are
unique in every state the embedding constructs. -/
abbrev FS := List (String × Bytes)

/-- Read the contents stored at a path, if any. -/
def fsRead (fs : FS) (p : String) : Option Bytes :=
  (fs.find? (fun kv => kv.1 == p)).map Prod.snd

/-- Write contents at a path, replacing what was there. -/
def fsWrite (fs : FS) (p : String) (d : Bytes) : FS :=
  (p, d) :: fs.filter (fun kv => !(kv.1 == p))

/-- Remove the file at a path (the model of os.unlink). -/
def fsUnlink (fs : FS) (p : String) : FS :=
  fs.filter (fun kv => !(kv.1 == p))

/-- Modelled from the Python standard library (os.path.dirname, POSIX
flavour, not part of src/): everything before the last slash, with
trailing slashes stripped unless the head is empty or all slashes. -/
def dirname (p : String) : String :=
  let cs := p.toList
  let i :=
    match cs.reverse.findIdx? (fun c => c == '/') with
    | none => 0
    | some k => cs.length - k
  let head := cs.take i
  if head ≠ [] ∧ head.any (fun c => !(c == '/')) then
    String.mk (head.reverse.dropWhile (fun c => c == '/')).reverse
  else
    String.mk head

/-- A backend operation issued to the hypervisor/guest driver, recorded in
traces so that frame claims (which operations a step does and does not
invoke) can be stated. -/
inductive Op where
  | powerOn (launchGui : Bool)
  | powerOff
  | snapshotRevert (snapName : String)
  | waitForTools (timeout : Nat)
deriving DecidableEq, Repr

/-- A named vix snapshot handle, as returned by snapshot_get_named.  The
baseline guest contents it records are abstracted: no claim depends on
them. -/
structure VixSnapshot where
  sname : String
deriving DecidableEq, Repr

/-- The vix-side view of one virtual machine (the template attribute):
display name, power state, and the guest filesystem the file-transfer
operations touch.  Internals of the vix library are modelled from the
specification of the backend boundary. -/
structure VixVM where
  name : String
  is_running : Bool
  files : FS
  dirs : List String
deriving DecidableEq, Repr

/-- Modelled from the spec: vix power_on (not in src/) leaves the machine
running; the plugin always passes launch_gui=True. -/
def VixVM.power_on (vm : VixVM) (launchGui : Bool) : VixVM × List Op :=
  ({ vm with is_running := true }, [Op.powerOn launchGui])

/-- Modelled from the spec: wait_for_tools (not in src/) blocks until the
guest agent responds; it changes no modelled state and is recorded in the
trace as the readiness wait. -/
def VixVM.wait_for_tools (vm : VixVM) (timeout : Nat) : VixVM × List Op :=
  (vm, [Op.waitForTools timeout])

/-- Modelled from the spec: snapshot_revert (not in src/) restores the
target to its recorded baseline state, which implicitly powers it off. -/
def VixVM.snapshot_revert (vm : VixVM) (s : VixSnapshot) : VixVM × List Op :=
  ({ vm with is_running := false }, [Op.snapshotRevert s.sname])

/-- Modelled from the spec: snapshot_get_named (not in src/) returns the
handle of the named snapshot. -/
def VixVM.snapshot_get_named (_vm : VixVM) (s : String) : VixSnapshot :=
  ⟨s⟩

/-- Guest directory existence test (vix dir_exists). -/
def VixVM.dir_exists (vm : VixVM) (d : String) : Bool :=
  vm.dirs.contains d

/-- Guest directory creation (vix create_directory). -/
def VixVM.create_directory (vm : VixVM) (d : String) : VixVM :=
  { vm with dirs := d :: vm.dirs }

/-- Failure kinds surfaced by the modelled backend operations. -/
inductive GuestError where
  | commandFailed
  | notFound
  | copyFailed
deriving DecidableEq, Repr

/-- Modelled from the spec: the vix host-to-guest file copy (not in src/)
reads the host file and writes its bytes at the guest path; it fails when
the host file is missing or when the guest parent directory does not
exist (the reason upload creates it first), and `fault` injects the
transport failure every backend operation is allowed to raise. -/
def copy_host_to_guest (fault : Bool) (host : FS) (vm : VixVM)
    (hostPath guestPath : String) : Except GuestError VixVM :=
  if fault then .error .copyFailed
  else
    match fsRead host hostPath with
    | none => .error .notFound
    | some d =>
      if vm.dirs.contains (dirname guestPath) then
        .ok { vm with files := fsWrite vm.files guestPath d }
      else .error .copyFailed

/-- Modelled from the spec: the vix guest-to-host file copy (not in src/)
reads the guest path and writes its bytes at the host path; a missing
guest path fails with notFound, and `fault` injects the transport
failure. -/
def copy_guest_to_host (fault : Bool) (vm : VixVM) (host : FS)
    (guestPath hostPath : String) : Except GuestError FS :=
  if fault then .error .copyFailed
  else
    match fsRead vm.files guestPath with
    | some d => .ok (fsWrite host hostPath d)
    | none => .error .notFound

/-- How a remote command execution behaved towards its caller. -/
inductive ExecBehavior where
  | blocked (exitCode : Int)
  | nonBlocking
deriving DecidableEq, Repr

/-- Modelled from the spec: vix proc_run (not in src/) with should_block
true blocks until the guest command completes and surfaces a non-zero
exit status as a CommandFailed error; with should_block false it fires
and returns without blocking, reporting nothing about the outcome.  The
eventual exit status of the guest command is supplied as `exitCode`. -/
def VixVM.proc_run (_vm : VixVM) (_path : String) (_args : List String)
    (exitCode : Int) (shouldBlock : Bool) : Except GuestError ExecBehavior :=
  if shouldBlock then
    if exitCode = 0 then .ok (ExecBehavior.blocked exitCode)
    else .error GuestError.commandFailed
  else .ok ExecBehavior.nonBlocking

/-- One pooled machine: the Machine base class (count, initialized) of the
source flattened together with its VixMachine subclass (template,
snapshot).  The class attributes default to count = 0 and
initialized = False. -/
structure VixMachine where
  count : Int
  initialized : Bool
  template : VixVM
  snapshot : Option VixSnapshot
deriving DecidableEq, Repr

/-- The name property: the display name of the underlying template. -/
def VixMachine.name (m : VixMachine) : String :=
  m.template.name

/-- Machine.acquire: increment the reference count, nothing else. -/
def VixMachine.acquire (m : VixMachine) : VixMachine :=
  { m with count := m.count + 1 }

/-- VixMachine.setup: power the template on when it is not running, then
wait for the guest tools with a 60 second timeout. -/
def VixMachine.setup (m : VixMachine) : VixMachine × List Op :=
  let s1 :=
    if m.template.is_running then (m.template, ([] : List Op))
    else m.template.power_on true
  let s2 := s1.1.wait_for_tools 60
  ({ m with template := s2.1 }, s1.2 ++ s2.2)

/-- VixMachine.reset: revert to the snapshot when one is configured, then
power on when not running, then wait for the guest tools. -/
def VixMachine.reset (m : VixMachine) : VixMachine × List Op :=
  let s1 :=
    match m.snapshot with
    | some s => m.template.snapshot_revert s
    | none => (m.template, ([] : List Op))
  let s2 :=
    if s1.1.is_running then (s1.1, ([] : List Op))
    else s1.1.power_on true
  let s3 := s2.1.wait_for_tools 60
  ({ m with template := s3.1 }, s1.2 ++ s2.2 ++ s3.2)

/-- VixMachine.teardown: revert to the snapshot when one is configured and
nothing else; the power-off that would follow is commented out in the
source. -/
def VixMachine.teardown (m : VixMachine) : VixMachine × List Op :=
  match m.snapshot with
  | some s =>
    let s1 := m.template.snapshot_revert s
    ({ m with template := s1.1 }, s1.2)
  | none => (m, [])

/-- Machine.release: decrement the count and, exactly when the new count
is zero, invoke teardown.  The returned Bool records whether teardown was
invoked and the trace records the backend operations it issued.  The
source has no underflow check: the decrement is unconditional. -/
def VixMachine.release (m : VixMachine) : VixMachine × Bool × List Op :=
  let m1 := { m with count := m.count - 1 }
  if m1.count = 0 then
    ((m1.teardown).1, true, (m1.teardown).2)
  else (m1, false, [])

/-- Modelled from the spec: vix open_vm (not in src/) opens the virtual
machine stored at a path; the display name is abstracted as the path
itself and the initial guest state as empty and powered off (no claim
depends on these). -/
def open_vm (path : String) : VixVM :=
  { name := path, is_running := false, files := [], dirs := [] }

/-- VixMachine.__init__: open the template at the path and, when the
snapshot argument is truthy (neither None nor empty), look up the named
snapshot as the baseline. -/
def VixMachine.init (path : String) (snapshot : Option String) : VixMachine :=
  let template := open_vm path
  { count := 0
    initialized := false
    template := template
    snapshot :=
      match snapshot with
      | some s => if s = "" then none else some (template.snapshot_get_named s)
      | none => none }

/-- VixMachine.upload: ensure the parent directory of the destination
exists in the guest, stage the bytes in a fresh host temporary file
(tmpName stands for the OS-chosen NamedTemporaryFile name), copy the
staged file into the guest inside a try block, and on the finally path
unlink the staged file before returning or re-raising. -/
def VixMachine.upload (fault : Bool) (tmpName : String) (m : VixMachine)
    (host : FS) (path : String) (data : Bytes) :
    Except GuestError VixMachine × FS :=
  let parent := dirname path
  let vm1 :=
    if m.template.dir_exists parent then m.template
    else m.template.create_directory parent
  let host1 := fsWrite host tmpName data
  let result := copy_host_to_guest fault host1 vm1 tmpName path
  let host2 := fsUnlink host1 tmpName
  match result with
  | .ok vm2 => (.ok { m with template := vm2 }, host2)
  | .error e => (.error e, host2)

/-- VixMachine.download: create a fresh empty host temporary file, copy
the guest path over it inside a try block, read the copied bytes back,
and on the finally path unlink the temporary file before returning or
re-raising. -/
def VixMachine.download (fault : Bool) (tmpName : String) (m : VixMachine)
    (host : FS) (path : String) : Except GuestError Bytes × FS :=
  let host1 := fsWrite host tmpName []
  match copy_guest_to_host fault m.template host1 path tmpName with
  | .error e => (.error e, fsUnlink host1 tmpName)
  | .ok host2 => (.ok ((fsRead host2 tmpName).getD []), fsUnlink host2 tmpName)

/-- VixMachine.execute: delegate to proc_run with should_block bound to
wait.  The stdin argument is accepted and dropped, as in the source. -/
def VixMachine.execute (m : VixMachine) (path : String) (args : List String)
    (_stdin : Option String) (exitCode : Int) (wait : Bool) :
    Except GuestError ExecBehavior :=
  m.template.proc_run path args exitCode wait

/-- One parametrized instance produced for a unit of work: the bound
machine (by name, standing for the shared object passed as the param
value), the xdist_group mark and the param id. -/
structure ParamInstance where
  target : String
  xdistGroup : String
  paramId : String
deriving DecidableEq, Repr

/-- The loop body of pytest_generate_tests: for each machine of the pool,
in order, call acquire and append a param carrying the machine, an
xdist_group mark named after it, and its name as id. -/
def genAcquire : List VixMachine → List VixMachine × List ParamInstance
  | [] => ([], [])
  | m :: rest =>
    let m1 := m.acquire
    let r := genAcquire rest
    (m1 :: r.1, ⟨m1.name, m1.name, m1.name⟩ :: r.2)

/-- pytest_generate_tests: when the unit does not use the target fixture,
return untouched; otherwise acquire every pooled machine and parametrize
the unit with one instance per machine. -/
def pytest_generate_tests (hasTargetFixture : Bool)
    (pool : List VixMachine) : List VixMachine × List ParamInstance :=
  if hasTargetFixture then genAcquire pool
  else (pool, [])

/-- pytest_sessionstart: exit when the pattern option is falsy (absent or
empty); otherwise build one VixMachine per glob match, in discovery
order, and exit when there are none.  globMatches stands for the result
of glob.glob(pattern, recursive=True), an external filesystem query. -/
def pytest_sessionstart (pattern : Option String) (globMatches : List String)
    (snapshot : Option String) : Except String (List VixMachine) :=
  if pattern = none ∨ pattern = some "" then
    .error "--pattern is required"
  else
    let ms := globMatches.map (fun path => VixMachine.init path snapshot)
    if ms.length = 0 then .error "no machines found"
    else .ok ms

/-- pytest_runtest_call, the before-body hook: when the item has a bound
target, run first-use setup and mark the machine initialized if it is
not yet, then always run the per-use reset. -/
def pytest_runtest_call (hasTarget : Bool) (m : VixMachine) :
    VixMachine × List Op :=
  if hasTarget then
    let s1 :=
      if m.initialized then (m, ([] : List Op))
      else ({ (m.setup).1 with initialized := true }, (m.setup).2)
    let s2 := (s1.1).reset
    (s2.1, s1.2 ++ s2.2)
  else (m, [])

/-- pytest_runtest_teardown, the after-body hook: when the item has a
bound target, release it. -/
def pytest_runtest_teardown (hasTarget : Bool) (m : VixMachine) :
    VixMachine × Bool × List Op :=
  if hasTarget then m.release
  else (m, false, [])

/-- The parametrization phase over a whole collection: the generate-tests
hook is called once per collected unit (a Bool per unit, whether it uses
the target fixture), threading the pool through the calls. -/
def generateAll : List Bool → List VixMachine → List VixMachine
  | [], pool => pool
  | u :: us, pool => generateAll us (pytest_generate_tests u pool).1

/-- One acquire or release event on a pooled machine. -/
inductive RefEvent where
  | acquire
  | release
deriving DecidableEq, Repr

/-- Run a sequence of acquire and release events against one machine,
counting how many times teardown is invoked. -/
def runEvents (m : VixMachine) : List RefEvent → VixMachine × Nat
  | [] => (m, 0)
  | RefEvent.acquire :: es => runEvents m.acquire es
  | RefEvent.release :: es =>
    let r := m.release
    let rest := runEvents r.1 es
    (rest.1, (if r.2.1 then 1 else 0) + rest.2)

/-- A sequence is admissible from count c when no release overtakes the
acquires before it: every release happens at a strictly positive count. -/
def validFrom (c : Int) : List RefEvent → Bool
  | [] => true
  | RefEvent.acquire :: es => validFrom (c + 1) es
  | RefEvent.release :: es => decide (0 < c) && validFrom (c - 1) es

/-- How many events of a sequence are releases made at count exactly 1,
that is, transitions of the running count from 1 to 0. -/
def zeroReturnsFrom (c : Int) : List RefEvent → Nat
  | [] => 0
  | RefEvent.acquire :: es => zeroReturnsFrom (c + 1) es
  | RefEvent.release :: es =>
    (if c = 1 then 1 else 0) + zeroReturnsFrom (c - 1) es

/-- A fresh pooled machine with no baseline snapshot, as built by
VixMachine.init for a discovered path when no snapshot option is given. -/
def demoMachine : VixMachine :=
  VixMachine.init "vm.vmx" none

/-- A running machine holding a baseline snapshot, mid-session. -/
def runningSnapMachine : VixMachine :=
  { count := 1
    initialized := true
    template := { name := "vm.vmx", is_running := true, files := [], dirs := [] }
    snapshot := some ⟨"initial"⟩ }

/-! Shared lemmas about the embedded operations. -/

/-- Teardown only touches the template: the reference count survives. -/
lemma teardown_count (m : VixMachine) : (m.teardown).1.count = m.count := by
  unfold VixMachine.teardown
  cases m.snapshot <;> rfl

/-- Release always decrements the count by one. -/
lemma release_count (m : VixMachine) : (m.release).1.count = m.count - 1 := by
  unfold VixMachine.release
  dsimp only
  split
  · exact teardown_count _
  · rfl

/-- Release invokes teardown exactly when the decremented count is zero. -/
lemma release_fired (m : VixMachine) :
    (m.release).2.1 = decide (m.count - 1 = 0) := by
  unfold VixMachine.release
  dsimp only
  split
  · next h =>
    have : m.count - 1 = 0 := h
    simp [this]
  · next h =>
    have : ¬ m.count - 1 = 0 := h
    simp [this]

/-- Core of the refcount claim: over any admissible event sequence, the
number of teardown invocations equals the number of releases taken at
count one, the transitions of the running count from 1 to 0. -/
lemma runEvents_teardowns (es : List RefEvent) : ∀ m : VixMachine,
    0 ≤ m.count → validFrom m.count es = true →
    (runEvents m es).2 = zeroReturnsFrom m.count es := by
  induction es with
  | nil => intro m _ _; rfl
  | cons e t ih =>
    intro m h0 hv
    cases e with
    | acquire =>
      have hc : (VixMachine.acquire m).count = m.count + 1 := rfl
      have hv' : validFrom (VixMachine.acquire m).count t = true := by
        rw [hc]; exact hv
      have := ih (VixMachine.acquire m) (by rw [hc]; omega) hv'
      simpa [runEvents, zeroReturnsFrom, hc] using this
    | release =>
      simp only [validFrom, Bool.and_eq_true, decide_eq_true_eq] at hv
      obtain ⟨hpos, hv'⟩ := hv
      have hc : (m.release).1.count = m.count - 1 := release_count m
      have hrec := ih (m.release).1 (by rw [hc]; omega) (by rw [hc]; exact hv')
      have hfire : (m.release).2.1 = decide (m.count - 1 = 0) := release_fired m
      simp only [runEvents, zeroReturnsFrom, hrec, hc, hfire]
      have hiff : (m.count - 1 = 0) ↔ (m.count = 1) := by omega
      by_cases h1 : m.count = 1
      · simp [h1]
      · simp [h1, hiff]

/-- Pushing a run of acquires into the zero-return count raises the
starting count. -/
lemma zeroReturns_acq_prefix : ∀ (n : Nat) (c : Int) (es : List RefEvent),
    zeroReturnsFrom c (List.replicate n RefEvent.acquire ++ es)
      = zeroReturnsFrom (c + n) es := by
  intro n
  induction n with
  | zero => intro c es; simp
  | succ k ih =>
    intro c es
    rw [List.replicate_succ, List.cons_append]
    show zeroReturnsFrom (c + 1) (List.replicate k RefEvent.acquire ++ es) = _
    rw [ih]
    have : c + 1 + (k : Int) = c + ((k + 1 : Nat) : Int) := by push_cast; ring
    rw [this]

/-- A run of n releases starting at count n returns to zero exactly once,
at its last release. -/
lemma zeroReturns_rel_run : ∀ n : Nat, 1 ≤ n →
    zeroReturnsFrom (n : Int) (List.replicate n RefEvent.release) = 1 := by
  intro n
  induction n with
  | zero => intro h; omega
  | succ k ih =>
    intro _
    rw [List.replicate_succ]
    show (if ((k + 1 : Nat) : Int) = 1 then 1 else 0)
        + zeroReturnsFrom (((k + 1 : Nat) : Int) - 1)
            (List.replicate k RefEvent.release) = 1
    by_cases hk : k = 0
    · subst hk; norm_num [zeroReturnsFrom]
    · have h1 : ¬ ((k + 1 : Nat) : Int) = 1 := by push_cast; omega
      have h2 : ((k + 1 : Nat) : Int) - 1 = (k : Int) := by push_cast; ring
      rw [if_neg h1, h2, ih (by omega)]

/-- C1: over any admissible interleaving of acquires and releases (no
release overtakes the prior acquires), teardown is invoked exactly at the
release calls that bring the count from 1 to 0 — hence exactly once on
the balanced acquire-first sequences the allocator produces, at the final
release — but it is invoked again at every later return of the count to
zero, not at most once over the whole sequence. -/
theorem teardown_fires_exactly_at_one_to_zero
    (m : VixMachine) (es : List RefEvent)
    (h0 : 0 ≤ m.count) (hv : validFrom m.count es = true) :
    (runEvents m es).2 = zeroReturnsFrom m.count es ∧
    (∀ n : Nat, 1 ≤ n → m.count = 0 →
      es = List.replicate n RefEvent.acquire ++ List.replicate n RefEvent.release →
      (runEvents m es).2 = 1) := by
  have main : (runEvents m es).2 = zeroReturnsFrom m.count es :=
    runEvents_teardowns es m h0 hv
  refine ⟨main, ?_⟩
  intro n hn hc hes
  rw [main, hc, hes, zeroReturns_acq_prefix]
  have h0n : (0 : Int) + n = n := by ring
  rw [h0n, zeroReturns_rel_run n hn]

/-- C1 witness: the admissible sequence acquire-release on a fresh machine
invokes teardown exactly as the 1-to-0 transition count says. -/
theorem teardown_fires_exactly_witness :
    0 ≤ demoMachine.count ∧
    validFrom demoMachine.count [RefEvent.acquire, RefEvent.release] = true ∧
    (runEvents demoMachine [RefEvent.acquire, RefEvent.release]).2
      = zeroReturnsFrom demoMachine.count [RefEvent.acquire, RefEvent.release] :=
  ⟨by decide, by decide,
    (teardown_fires_exactly_at_one_to_zero demoMachine
      [RefEvent.acquire, RefEvent.release] (by decide) (by decide)).1⟩

/-- C1 counterexample: the admissible sequence acquire, release, acquire,
release on one fresh machine invokes teardown twice, not exactly once
over the whole sequence. -/
theorem teardown_fires_twice_on_reacquire :
    validFrom demoMachine.count
      [RefEvent.acquire, RefEvent.release, RefEvent.acquire, RefEvent.release]
      = true ∧
    (runEvents demoMachine
      [RefEvent.acquire, RefEvent.release, RefEvent.acquire, RefEvent.release]).2
      = 2 := by
  decide

/-- C2 (amended): release on a machine whose count is already 0 does not
invoke teardown, issues no backend operation, and silently drives the
count to -1; the source raises no Underflow error, having no underflow
check at all. -/
theorem release_at_zero_no_teardown_count_negative
    (m : VixMachine) (h : m.count = 0) :
    (m.release).2.1 = false ∧
    (m.release).1.count = -1 ∧
    (m.release).2.2 = [] := by
  have h1 : ¬ (m.count - 1 = 0) := by omega
  unfold VixMachine.release
  rw [if_neg h1]
  refine ⟨rfl, ?_, rfl⟩
  show m.count - 1 = -1
  omega

/-- C2 witness: the amended behavior at a concrete fresh machine. -/
theorem release_at_zero_witness :
    demoMachine.count = 0 ∧
    (demoMachine.release).2.1 = false ∧
    (demoMachine.release).1.count = -1 ∧
    (demoMachine.release).2.2 = [] :=
  ⟨by decide,
    (release_at_zero_no_teardown_count_negative demoMachine (by decide)).1,
    (release_at_zero_no_teardown_count_negative demoMachine (by decide)).2.1,
    (release_at_zero_no_teardown_count_negative demoMachine (by decide)).2.2⟩

/-- C2 counterexample: on a fresh machine with count 0, release returns
normally with the count at -1 and teardown not invoked, so no Underflow
error is raised and the count is silently driven negative. -/
theorem release_at_zero_underflows_silently :
    demoMachine.count = 0 ∧
    (demoMachine.release).1.count = -1 ∧
    (demoMachine.release).2.1 = false := by
  decide

/-- C3: the before-unit hook on an uninitialized machine runs first-use
setup (power on when not running, then the readiness wait) and marks the
machine initialized, then runs the per-use reset (snapshot revert when a
baseline is configured, then power on when not running, then the
readiness wait); and on every call, first or later, the hook's trace ends
with the readiness wait, so the wait after revert-and-power-on is never
skipped. -/
theorem runtest_call_first_use_setup_then_reset
    (m : VixMachine) (h : m.initialized = false) :
    (pytest_runtest_call true m).1.initialized = true ∧
    (pytest_runtest_call true m).2 =
      ((if m.template.is_running then [] else [Op.powerOn true])
          ++ [Op.waitForTools 60])
        ++ (match m.snapshot with
            | some s => [Op.snapshotRevert s.sname, Op.powerOn true,
                Op.waitForTools 60]
            | none => [Op.waitForTools 60]) ∧
    (∀ m2 : VixMachine,
      ((pytest_runtest_call true m2).2).getLast? = some (Op.waitForTools 60)) := by
  refine ⟨?_, ?_, ?_⟩
  · cases hr : m.template.is_running <;> cases hs : m.snapshot <;>
      simp [pytest_runtest_call, VixMachine.setup, VixMachine.reset,
        VixVM.power_on, VixVM.wait_for_tools, VixVM.snapshot_revert, h, hr, hs]
  · cases hr : m.template.is_running <;> cases hs : m.snapshot <;>
      simp [pytest_runtest_call, VixMachine.setup, VixMachine.reset,
        VixVM.power_on, VixVM.wait_for_tools, VixVM.snapshot_revert, h, hr, hs]
  · intro m2
    cases hi : m2.initialized <;> cases hr : m2.template.is_running <;>
      cases hs : m2.snapshot <;>
      simp [pytest_runtest_call, VixMachine.setup, VixMachine.reset,
        VixVM.power_on, VixVM.wait_for_tools, VixVM.snapshot_revert, hi, hr, hs]

/-- C3 witness: a fresh, uninitialized machine comes out of the hook
initialized, with the setup-then-reset trace. -/
theorem runtest_call_first_use_witness :
    demoMachine.initialized = false ∧
    (pytest_runtest_call true demoMachine).1.initialized = true ∧
    ((pytest_runtest_call true demoMachine).2).getLast?
      = some (Op.waitForTools 60) :=
  ⟨by decide,
    (runtest_call_first_use_setup_then_reset demoMachine (by decide)).1,
    (runtest_call_first_use_setup_then_reset demoMachine (by decide)).2.2
      demoMachine⟩

/-- C6 (amended): teardown invokes only the snapshot revert when a
baseline is configured and nothing at all otherwise; it never issues a
power-off or power-on operation.  It does not directly alter power
state, but the revert itself implicitly leaves the target powered off. -/
theorem teardown_only_reverts (m : VixMachine) :
    (m.teardown).2 =
      (match m.snapshot with
       | some s => [Op.snapshotRevert s.sname]
       | none => []) ∧
    (∀ op ∈ (m.teardown).2,
      (∀ g, op ≠ Op.powerOn g) ∧ op ≠ Op.powerOff) ∧
    (m.snapshot = none → m.teardown = (m, [])) := by
  cases hs : m.snapshot <;>
    simp [VixMachine.teardown, VixVM.snapshot_revert, hs]

/-- C6 witness: on a machine with no baseline snapshot, teardown is a
complete no-op. -/
theorem teardown_only_reverts_witness :
    demoMachine.snapshot = none ∧ demoMachine.teardown = (demoMachine, []) :=
  ⟨by decide, (teardown_only_reverts demoMachine).2.2 (by decide)⟩

/-- C6 counterexample: on a running machine with a baseline snapshot,
teardown leaves the template no longer running — the power state is not
left untouched, because the revert implicitly powers the target off. -/
theorem teardown_powers_off_via_revert :
    runningSnapMachine.template.is_running = true ∧
    (runningSnapMachine.teardown).1.template.is_running = false := by
  decide

/-- C7: execute forwards wait as should_block; with wait true it blocks
until completion and surfaces a non-zero exit status as commandFailed,
with wait false it returns non-blocking with no error about the
outcome. -/
theorem execute_blocking_surfaces_failure (m : VixMachine) (path : String)
    (args : List String) (stdinArg : Option String) (exitCode : Int) :
    (VixMachine.execute m path args stdinArg exitCode true
      = if exitCode = 0 then .ok (ExecBehavior.blocked exitCode)
        else .error GuestError.commandFailed) ∧
    (VixMachine.execute m path args stdinArg exitCode false
      = .ok ExecBehavior.nonBlocking) := by
  constructor <;> rfl

/-- C9: for a unit of work that does not use the target fixture, all
three hooks are complete no-ops: the pool and the machine come back
unchanged (count and initialized included), no param instances are
produced, no backend operation is traced, and no release happens. -/
theorem hooks_noop_without_target (pool : List VixMachine)
    (m : VixMachine) :
    pytest_generate_tests false pool = (pool, []) ∧
    pytest_runtest_call false m = (m, []) ∧
    pytest_runtest_teardown false m = (m, false, []) := by
  refine ⟨rfl, rfl, rfl⟩

/-- Acquire only bumps the count: the name survives. -/
lemma acquire_name (m : VixMachine) : (m.acquire).name = m.name := rfl

/-- The generate-tests loop acquires every machine once and builds one
param per machine, tagged and identified by the machine name. -/
lemma genAcquire_eq (pool : List VixMachine) :
    genAcquire pool =
      (pool.map VixMachine.acquire,
       pool.map (fun m => (⟨m.name, m.name, m.name⟩ : ParamInstance))) := by
  induction pool with
  | nil => rfl
  | cons m t ih => simp [genAcquire, ih, acquire_name]

/-- Folding the generate hook over the collection keeps the pool size. -/
lemma generateAll_length (units : List Bool) : ∀ pool : List VixMachine,
    (generateAll units pool).length = pool.length := by
  induction units with
  | nil => intro pool; rfl
  | cons u us ih =>
    intro pool
    cases u <;>
      simp [generateAll, pytest_generate_tests, genAcquire_eq, ih]

/-- Folding the generate hook over the collection raises each pooled
machine's count by the number of units that use the target fixture. -/
lemma generateAll_count (units : List Bool) : ∀ (pool : List VixMachine)
    (i : Nat), ((generateAll units pool)[i]?).map VixMachine.count
      = (pool[i]?).map (fun m => m.count + (units.count true : Int)) := by
  induction units with
  | nil =>
    intro pool i
    cases hp : pool[i]? <;> simp [generateAll, hp]
  | cons u us ih =>
    intro pool i
    cases u
    · have step : generateAll (false :: us) pool = generateAll us pool := by
        simp [generateAll, pytest_generate_tests]
      rw [step, ih]
      cases hp : pool[i]? <;> simp [hp]
    · have step : generateAll (true :: us) pool
          = generateAll us (pool.map VixMachine.acquire) := by
        simp [generateAll, pytest_generate_tests, genAcquire_eq]
      rw [step, ih]
      cases hp : pool[i]? <;>
        simp [hp, List.getElem?_map, VixMachine.acquire]
      ring

/-- C4: for a unit that uses the target fixture, the generate hook builds
one param instance per pooled machine, each tagged (xdist_group and id)
with that machine's name, and acquires every machine once; folding the
hook over a whole collection before any unit runs leaves each fresh
machine's count equal to the number of units bound to it, the units that
use the fixture. -/
theorem generate_acquires_and_tags_per_instance
    (pool : List VixMachine) (units : List Bool) (i : Nat)
    (hi : i < pool.length) (hfresh : ∀ m ∈ pool, m.count = 0) :
    (pytest_generate_tests true pool).2
      = pool.map (fun m => (⟨m.name, m.name, m.name⟩ : ParamInstance)) ∧
    (pytest_generate_tests true pool).1 = pool.map VixMachine.acquire ∧
    (generateAll units pool).length = pool.length ∧
    ((generateAll units pool)[i]?).map VixMachine.count
      = some ((units.count true : Nat) : Int) := by
  refine ⟨by simp [pytest_generate_tests, genAcquire_eq],
    by simp [pytest_generate_tests, genAcquire_eq],
    generateAll_length units pool, ?_⟩
  rw [generateAll_count]
  rw [List.getElem?_eq_getElem hi]
  have hmem : pool[i] ∈ pool := List.getElem_mem hi
  simp [hfresh _ hmem]

/-- C4 witness: a one-machine pool with one target-using unit and one
non-using unit ends with count 1 on the machine, before any unit runs. -/
theorem generate_acquires_witness :
    0 < [demoMachine].length ∧
    (∀ m ∈ [demoMachine], m.count = 0) ∧
    ((generateAll [true, false] [demoMachine])[0]?).map VixMachine.count
      = some (((([true, false] : List Bool).count true : Nat)) : Int) :=
  ⟨by decide, by decide,
    (generate_acquires_and_tags_per_instance [demoMachine] [true, false] 0
      (by decide) (by decide)).2.2.2⟩

/-- C5: session start exits before anything runs when the pattern option
is absent (or empty, which Python treats the same) and when the glob
matches no targets; otherwise the pool is the non-empty list of machines
built from the matches in discovery order. -/
theorem sessionstart_failfast (pattern : Option String)
    (globMatches : List String) (snap : Option String) :
    ((pattern = none ∨ pattern = some "") →
      pytest_sessionstart pattern globMatches snap
        = .error "--pattern is required") ∧
    (pattern ≠ none → pattern ≠ some "" → globMatches = [] →
      pytest_sessionstart pattern globMatches snap
        = .error "no machines found") ∧
    (pattern ≠ none → pattern ≠ some "" → globMatches ≠ [] →
      pytest_sessionstart pattern globMatches snap
        = .ok (globMatches.map (fun path => VixMachine.init path snap)) ∧
      globMatches.map (fun path => VixMachine.init path snap) ≠ []) := by
  refine ⟨?_, ?_, ?_⟩
  · intro h
    rcases h with h | h <;> subst h <;> simp [pytest_sessionstart]
  · intro h1 h2 h3
    subst h3
    simp [pytest_sessionstart, h1, h2]
  · intro h1 h2 h3
    refine ⟨?_, by simp [h3]⟩
    simp [pytest_sessionstart, h1, h2, h3]

/-- C5 witness: the three outcomes at concrete inputs — missing pattern,
empty discovery, and a one-match discovery producing a singleton pool. -/
theorem sessionstart_failfast_witness :
    pytest_sessionstart none ["a.vmx"] none = .error "--pattern is required" ∧
    pytest_sessionstart (some "**/*.vmx") [] none
      = .error "no machines found" ∧
    pytest_sessionstart (some "**/*.vmx") ["x.vmx"] none
      = .ok [VixMachine.init "x.vmx" none] :=
  ⟨(sessionstart_failfast none ["a.vmx"] none).1 (Or.inl rfl),
   (sessionstart_failfast (some "**/*.vmx") [] none).2.1
      (by decide) (by decide) rfl,
   ((sessionstart_failfast (some "**/*.vmx") ["x.vmx"] none).2.2
      (by decide) (by decide) (by decide)).1⟩

/-- Reading back a freshly written path returns exactly what was
written. -/
lemma fsRead_fsWrite (fs : FS) (p : String) (d : Bytes) :
    fsRead (fsWrite fs p d) p = some d := by
  unfold fsRead fsWrite
  rw [List.find?_cons_of_pos]
  · rfl
  · simp

/-- Unlinking a path right after writing it undoes the write. -/
lemma fsUnlink_fsWrite (fs : FS) (p : String) (d : Bytes) :
    fsUnlink (fsWrite fs p d) p = fsUnlink fs p := by
  unfold fsUnlink fsWrite
  rw [List.filter_cons_of_neg]
  · rw [List.filter_filter]
    simp only [Bool.and_self]
  · simp

/-- Unlinking a path that is not present changes nothing. -/
lemma fsUnlink_not_mem (fs : FS) (p : String)
    (h : p ∉ fs.map Prod.fst) : fsUnlink fs p = fs := by
  induction fs with
  | nil => rfl
  | cons kv t ih =>
    simp only [List.map_cons, List.mem_cons] at h
    push_neg at h
    have h1 : (kv.1 == p) = false := by
      simp only [beq_eq_false_iff_ne]
      exact Ne.symm h.1
    unfold fsUnlink at *
    rw [List.filter_cons_of_pos (by simp [h1])]
    rw [ih h.2]

/-- The guest state upload leaves behind: the destination's parent
directory ensured, then the bytes written at the destination. -/
def uploadedVM (vm : VixVM) (path : String) (data : Bytes) : VixVM :=
  let vm1 :=
    if vm.dir_exists (dirname path) then vm
    else vm.create_directory (dirname path)
  { vm1 with files := fsWrite vm1.files path data }

/-- C8: upload first makes sure the parent directory of the destination
exists in the guest (creating it when missing) and then writes the bytes
at the destination; a subsequent download of the same path returns
exactly those bytes. -/
theorem upload_creates_parent_then_download_roundtrips
    (m : VixMachine) (host host2 : FS) (path : String) (data : Bytes)
    (t1 t2 : String) :
    (VixMachine.upload false t1 m host path data).1
      = .ok { m with template := uploadedVM m.template path data } ∧
    (uploadedVM m.template path data).dirs.contains (dirname path) = true ∧
    fsRead (uploadedVM m.template path data).files path = some data ∧
    (VixMachine.download false t2
        { m with template := uploadedVM m.template path data } host2 path).1
      = .ok data := by
  have hdir : (uploadedVM m.template path data).dirs.contains
      (dirname path) = true := by
    unfold uploadedVM
    by_cases hd : dirname path ∈ m.template.dirs <;>
      simp [hd, VixVM.dir_exists, VixVM.create_directory]
  have hfile : fsRead (uploadedVM m.template path data).files path
      = some data := by
    unfold uploadedVM
    by_cases hd : dirname path ∈ m.template.dirs <;>
      simp [hd, VixVM.dir_exists, VixVM.create_directory, fsRead_fsWrite]
  refine ⟨?_, hdir, hfile, ?_⟩
  · unfold VixMachine.upload copy_host_to_guest uploadedVM
    by_cases hd : dirname path ∈ m.template.dirs <;>
      simp [hd, VixVM.dir_exists, VixVM.create_directory, fsRead_fsWrite]
  · unfold VixMachine.download copy_guest_to_host
    simp [hfile, fsRead_fsWrite]

/-- C10: with a fresh staging name, upload and download always hand the
host filesystem back exactly as it was, whether the guest-side copy
succeeds or fails; an injected copy failure is propagated as the error
the caller sees, and a download of a missing guest path propagates
notFound. -/
theorem staging_always_unlinked (m : VixMachine) (host : FS)
    (path : String) (data : Bytes) (t : String)
    (h : t ∉ host.map Prod.fst) :
    (∀ fault, (VixMachine.upload fault t m host path data).2 = host) ∧
    (∀ fault, (VixMachine.download fault t m host path).2 = host) ∧
    (VixMachine.upload true t m host path data).1
      = .error GuestError.copyFailed ∧
    (VixMachine.download true t m host path).1
      = .error GuestError.copyFailed ∧
    (fsRead m.template.files path = none →
      (VixMachine.download false t m host path).1
        = .error GuestError.notFound) := by
  have hUnl : ∀ d : Bytes, fsUnlink (fsWrite host t d) t = host := by
    intro d
    rw [fsUnlink_fsWrite, fsUnlink_not_mem host t h]
  refine ⟨?_, ?_, ?_, ?_, ?_⟩
  · intro fault
    unfold VixMachine.upload
    cases hr : copy_host_to_guest fault (fsWrite host t data)
        (if m.template.dir_exists (dirname path) then m.template
         else m.template.create_directory (dirname path)) t path <;>
      simp [hr, hUnl]
  · intro fault
    unfold VixMachine.download copy_guest_to_host
    cases fault
    · cases hf : fsRead m.template.files path <;>
        simp [hf, fsUnlink_fsWrite, hUnl]
    · simp [hUnl]
  · unfold VixMachine.upload copy_host_to_guest
    simp
  · unfold VixMachine.download copy_guest_to_host
    simp
  · intro hf
    unfold VixMachine.download copy_guest_to_host
    simp [hf]

/-- C10 witness: with an empty host filesystem and an injected copy
failure, upload propagates the failure and hands the host back empty. -/
theorem staging_always_unlinked_witness :
    "tmp0" ∉ ([] : FS).map Prod.fst ∧
    (VixMachine.upload true "tmp0" demoMachine [] "/guest/f" [1]).1
      = .error GuestError.copyFailed ∧
    (VixMachine.upload true "tmp0" demoMachine [] "/guest/f" [1]).2 = [] :=
  ⟨by simp,
   (staging_always_unlinked demoMachine [] "/guest/f" [1] "tmp0"
      (by simp)).2.2.1,
   (staging_always_unlinked demoMachine [] "/guest/f" [1] "tmp0"
      (by simp)).1 true⟩

end Smoothbrain
